import Mathlib

/-!
Verification of the interrupt-identifier and CPU-affinity core of an ARM GIC
driver (file `src/define.rs`), as a shallow embedding in Lean.

Modelling conventions:
* Rust `u32`/`u64`/`u8` values are `Nat`; wherever the Rust code can
  truncate (the `as _` narrowing and the reinterpretation of a `u64` as a
  byte-layout struct) the embedding takes `% 2^w` explicitly.
* A Rust `assert!` that aborts is modelled by returning `Option`: `none`
  is the abort, `some` the normal return value.
* `impl From<u64> for MPID` transmutes the eight bytes of the integer into
  the `repr(C)` struct `{ aff0: u8, aff1: u8, aff2: u8, _flag: u8, aff3: u32 }`;
  on the little-endian targets this driver supports, byte k of the integer
  lands at struct offset k, so the embedding extracts bytes by division
  and remainder.
* The `Debug` rendering is modelled as a function to `String`, using
  `Nat.repr` for the `{}` placeholder of `write!`.
-/

/-- A half-open range of interrupt numbers, mirroring Rust's
`Range<u32> { start, end }` (`end` is a Lean keyword, so the field is
called `stop`). -/
structure URange where
  start : Nat
  stop : Nat

/-- `Range::contains`: `start <= v && v < end`. -/
def URange.containsNat (r : URange) (v : Nat) : Bool :=
  r.start ≤ v && v < r.stop

/-- `pub const SGI_RANGE: Range<u32> = Range { start: 0, end: 16 }`. -/
def SGI_RANGE : URange := ⟨0, 16⟩

/-- `pub const PPI_RANGE: Range<u32> = Range { start: 16, end: 32 }`. -/
def PPI_RANGE : URange := ⟨16, 32⟩

/-- `pub const SPI_RANGE: Range<u32> = Range { start: 32, end: 1020 }`. -/
def SPI_RANGE : URange := ⟨32, 1020⟩

/-- `pub const SPECIAL_RANGE: Range<u32> = Range { start: 1020, end: 1024 }`. -/
def SPECIAL_RANGE : URange := ⟨1020, 1024⟩

/-- `pub struct IntId(u32)`: an interrupt ID wrapping one unsigned value. -/
structure IntId where
  value : Nat
deriving DecidableEq

/-- `IntId::raw`: `assert!(id < SPECIAL_RANGE.end); Self(id)`.
`none` models the aborting assertion failure. -/
def IntId.raw (id : Nat) : Option IntId :=
  if id < SPECIAL_RANGE.stop then some ⟨id⟩ else none

/-- `IntId::sgi`: `assert!(sgi < SGI_RANGE.end); Self(sgi)`. -/
def IntId.sgi (sgi : Nat) : Option IntId :=
  if sgi < SGI_RANGE.stop then some ⟨sgi⟩ else none

/-- `IntId::ppi`: `assert!(ppi < PPI_RANGE.end - PPI_RANGE.start);
Self(PPI_RANGE.start + ppi)`. -/
def IntId.ppi (ppi : Nat) : Option IntId :=
  if ppi < PPI_RANGE.stop - PPI_RANGE.start then some ⟨PPI_RANGE.start + ppi⟩ else none

/-- `IntId::spi`: `assert!(spi < SPECIAL_RANGE.start);
Self(SPI_RANGE.start + spi)`.  Note the source guard is
`SPECIAL_RANGE.start` (1020), not the width 988 of the SPI sub-range. -/
def IntId.spi (spi : Nat) : Option IntId :=
  if spi < SPECIAL_RANGE.start then some ⟨SPI_RANGE.start + spi⟩ else none

/-- `IntId::is_sgi`: `SGI_RANGE.contains(&self.0)`. -/
def IntId.is_sgi (i : IntId) : Bool :=
  SGI_RANGE.containsNat i.value

/-- `IntId::is_private`: `self.0 < SPI_RANGE.start`. -/
def IntId.is_private (i : IntId) : Bool :=
  i.value < SPI_RANGE.start

/-- `IntId::to_u32`: returns the wrapped value. -/
def IntId.to_u32 (i : IntId) : Nat :=
  i.value

/-- `impl From<IntId> for u32`: `intid.0`. -/
def u32_from_intId (i : IntId) : Nat :=
  i.value

/-- `impl Debug for IntId`: the match over `self.0` in `fmt`, with
`write!(f, "... {}", n)` modelled as string concatenation of `Nat.repr`. -/
def IntId.debugFmt (i : IntId) : String :=
  if i.value < 16 then "SGI " ++ Nat.repr (i.value - SGI_RANGE.start)
  else if i.value < 32 then "PPI " ++ Nat.repr (i.value - PPI_RANGE.start)
  else if i.value < 1020 then "SPI " ++ Nat.repr (i.value - SPI_RANGE.start)
  else if i.value < 1024 then "Special IntId" ++ Nat.repr i.value
  else "Invalid IntId" ++ Nat.repr i.value

/-- `pub struct CPUTarget { aff0: u8, aff1: u8, aff2: u8, aff3: u8 }`. -/
structure CPUTarget where
  aff0 : Nat
  aff1 : Nat
  aff2 : Nat
  aff3 : Nat
deriving DecidableEq

/-- `CPUTarget::CORE0`: the all-zero affinity. -/
def CPUTarget.CORE0 : CPUTarget :=
  ⟨0, 0, 0, 0⟩

/-- `CPUTarget::affinity`:
`aff0 as u32 | (aff1 as u32) << 8 | (aff2 as u32) << 16 | (aff3 as u32) << 24`,
a `u32` result, hence the explicit `% 2^32` (which never truncates when the
fields are in `u8` range). -/
def CPUTarget.affinity (c : CPUTarget) : Nat :=
  (c.aff0 ||| c.aff1 <<< 8 ||| c.aff2 <<< 16 ||| c.aff3 <<< 24) % 4294967296

/-- `CPUTarget::cpu_target_list`: `1 << self.aff0` at type `u8`, hence the
explicit `% 2^8`. -/
def CPUTarget.cpu_target_list (c : CPUTarget) : Nat :=
  (1 <<< c.aff0) % 256

/-- `pub struct MPID { aff0: u8, aff1: u8, aff2: u8, _flag: u8, aff3: u32 }`,
the raw `repr(C)` affinity-register layout. -/
structure MPID where
  aff0 : Nat
  aff1 : Nat
  aff2 : Nat
  flagByte : Nat
  aff3 : Nat
deriving DecidableEq

/-- `impl From<u64> for MPID`: `transmute(value)`.  With `repr(C)` and a
little-endian target, integer byte 0 is `aff0`, byte 1 `aff1`, byte 2
`aff2`, byte 3 the reserved `_flag`, and bytes 4-7 the 32-bit `aff3`. -/
def MPID.fromU64 (value : Nat) : MPID :=
  { aff0 := value % 256
  , aff1 := value / 256 % 256
  , aff2 := value / 65536 % 256
  , flagByte := value / 16777216 % 256
  , aff3 := value / 4294967296 % 4294967296 }

/-- `impl From<MPID> for CPUTarget`: copies `aff0..aff2` and narrows
`aff3` from `u32` to `u8` with `as _` (truncation to the low byte). -/
def CPUTarget.fromMPID (m : MPID) : CPUTarget :=
  ⟨m.aff0, m.aff1, m.aff2, m.aff3 % 256⟩

/-- Disjoint-bit OR is addition: a value below `2 ^ k` ORed with a value
shifted left by `k` is their sum. -/
lemma lor_shiftLeft_eq_add {a b k : Nat} (h : a < 2 ^ k) :
    a ||| b <<< k = a + b * 2 ^ k := by
  rw [Nat.shiftLeft_eq, Nat.mul_comm b, Nat.or_comm, ← Nat.mul_add_lt_is_or h]
  ring

/-- Claim C5: for all `n < 1024`, `IntId::raw(n)` succeeds and the result's
`to_u32` is exactly `n`; for `n ≥ 1024` the construction aborts. -/
theorem C5_raw_roundtrip (n : Nat) :
    (n < 1024 → ∃ i, IntId.raw n = some i ∧ i.to_u32 = n) ∧
    (1024 ≤ n → IntId.raw n = none) := by
  constructor
  · intro h
    exact ⟨⟨n⟩, by simp [IntId.raw, SPECIAL_RANGE, h], rfl⟩
  · intro h
    simp [IntId.raw, SPECIAL_RANGE]
    omega

/-- Witness for C5 at `n = 1023` (succeeds) and `n = 1024` (aborts). -/
theorem C5_raw_roundtrip_witness :
    (∃ i, IntId.raw 1023 = some i ∧ i.to_u32 = 1023) ∧ IntId.raw 1024 = none :=
  ⟨(C5_raw_roundtrip 1023).1 (by decide), (C5_raw_roundtrip 1024).2 (by decide)⟩

/-- Claim C6: `IntId::sgi(n)` asserts `n < 16` and returns value `n`;
`IntId::ppi(n)` asserts `n < 16` and returns value `16 + n`; both abort
on violation, so `sgi(16)` and `ppi(16)` abort. -/
theorem C6_sgi_ppi (n : Nat) :
    (n < 16 → IntId.sgi n = some ⟨n⟩ ∧ IntId.ppi n = some ⟨16 + n⟩) ∧
    (16 ≤ n → IntId.sgi n = none ∧ IntId.ppi n = none) := by
  constructor
  · intro h
    constructor
    · simp [IntId.sgi, SGI_RANGE, h]
    · simp [IntId.ppi, PPI_RANGE]
      omega
  · intro h
    constructor
    · simp [IntId.sgi, SGI_RANGE]
      omega
    · simp [IntId.ppi, PPI_RANGE]
      omega

/-- Witness for C6 at `n = 15` (both succeed) and `n = 16` (both abort). -/
theorem C6_sgi_ppi_witness :
    (IntId.sgi 15 = some ⟨15⟩ ∧ IntId.ppi 15 = some ⟨16 + 15⟩) ∧
    (IntId.sgi 16 = none ∧ IntId.ppi 16 = none) :=
  ⟨(C6_sgi_ppi 15).1 (by decide), (C6_sgi_ppi 16).2 (by decide)⟩

/-- Claim C9: the Debug rendering prints the category and the offset inside
it: value 5 is "SGI 5", 20 is "PPI 4", 100 is "SPI 68", 1021 is the
Special rendering. -/
theorem C9_debug_rendering :
    IntId.debugFmt ⟨5⟩ = "SGI 5" ∧ IntId.debugFmt ⟨20⟩ = "PPI 4" ∧
    IntId.debugFmt ⟨100⟩ = "SPI 68" ∧
    IntId.debugFmt ⟨1021⟩ = "Special IntId1021" :=
  ⟨rfl, rfl, rfl, rfl⟩

/-- Claim C10: `impl From<IntId> for u32` and `to_u32` read back the same
number for every identifier. -/
theorem C10_from_eq_to_u32 (i : IntId) : u32_from_intId i = i.to_u32 :=
  rfl

/-- Claim C1 is refuted by the source: `IntId::spi` asserts
`spi < SPECIAL_RANGE.start` (1020), not `spi < 988`.  So `spi(988)` does
not abort and returns value 1020, `spi(1019)` returns value 1051, and the
first aborting input is 1020. -/
theorem C1_spi_guard_is_1020 :
    IntId.spi 988 = some ⟨1020⟩ ∧ IntId.spi 1019 = some ⟨1051⟩ ∧
    IntId.spi 1020 = none := by
  refine ⟨?_, ?_, ?_⟩ <;> decide

/-- Claim C2 is refuted by the source: the non-aborting call `spi(1000)`
builds the identifier 1032, which breaks the `< 1024` invariant and is
rendered by Debug through the "Invalid" catch-all. -/
theorem C2_spi_breaks_invariant :
    IntId.spi 1000 = some ⟨1032⟩ ∧ ¬ (1032 < 1024) ∧
    IntId.debugFmt ⟨1032⟩ = "Invalid IntId1032" := by
  refine ⟨by decide, by decide, rfl⟩

/-- Claim C3: packing four 8-bit fields into the little-endian `repr(C)`
register layout (byte 0 aff0, byte 1 aff1, byte 2 aff2, byte 3 reserved,
bytes 4-7 aff3) and converting through `MPID::from` then
`From<MPID> for CPUTarget` reproduces `aff0..aff2` exactly and `aff3` as
the low byte of the packed field. -/
theorem C3_mpid_roundtrip (a0 a1 a2 a3 : Nat)
    (h0 : a0 < 256) (h1 : a1 < 256) (h2 : a2 < 256) (h3 : a3 < 256) :
    CPUTarget.fromMPID
      (MPID.fromU64 (a0 + a1 * 256 + a2 * 65536 + a3 * 4294967296)) =
      ⟨a0, a1, a2, a3⟩ := by
  simp only [MPID.fromU64, CPUTarget.fromMPID, CPUTarget.mk.injEq]
  refine ⟨?_, ?_, ?_, ?_⟩ <;> omega

/-- Witness for C3 at `(aff0, aff1, aff2, aff3) = (1, 2, 3, 4)`. -/
theorem C3_mpid_roundtrip_witness :
    CPUTarget.fromMPID
      (MPID.fromU64 (1 + 2 * 256 + 3 * 65536 + 4 * 4294967296)) =
      ⟨1, 2, 3, 4⟩ :=
  C3_mpid_roundtrip 1 2 3 4 (by decide) (by decide) (by decide) (by decide)

/-- Claim C4: `affinity()` packs the four fields as
`aff0 | aff1<<8 | aff2<<16 | aff3<<24`, i.e. for in-range (u8) fields it
equals `aff0 + aff1*2^8 + aff2*2^16 + aff3*2^24`. -/
theorem C4_affinity_packing (a0 a1 a2 a3 : Nat)
    (h0 : a0 < 256) (h1 : a1 < 256) (h2 : a2 < 256) (h3 : a3 < 256) :
    (CPUTarget.mk a0 a1 a2 a3).affinity =
      a0 + a1 * 256 + a2 * 65536 + a3 * 16777216 := by
  have e1 : a0 ||| a1 <<< 8 = a0 + a1 * 256 := by
    have h : a0 < 2 ^ 8 := by omega
    simpa using lor_shiftLeft_eq_add (b := a1) h
  have e2 : a0 + a1 * 256 ||| a2 <<< 16 = a0 + a1 * 256 + a2 * 65536 := by
    have h : a0 + a1 * 256 < 2 ^ 16 := by omega
    simpa using lor_shiftLeft_eq_add (b := a2) h
  have e3 : a0 + a1 * 256 + a2 * 65536 ||| a3 <<< 24 =
      a0 + a1 * 256 + a2 * 65536 + a3 * 16777216 := by
    have h : a0 + a1 * 256 + a2 * 65536 < 2 ^ 24 := by omega
    simpa using lor_shiftLeft_eq_add (b := a3) h
  have e0 : (CPUTarget.mk a0 a1 a2 a3).affinity =
      (a0 ||| a1 <<< 8 ||| a2 <<< 16 ||| a3 <<< 24) % 4294967296 := rfl
  rw [e0, e1, e2, e3, Nat.mod_eq_of_lt (by omega)]

/-- Witness for C4: `CORE0.affinity() == 0` and an `aff0 = 3` target has
`affinity() == 3`. -/
theorem C4_affinity_packing_witness :
    CPUTarget.CORE0.affinity = 0 ∧ (CPUTarget.mk 3 0 0 0).affinity = 3 := by
  constructor
  · have h := C4_affinity_packing 0 0 0 0 (by decide) (by decide) (by decide) (by decide)
    simpa [CPUTarget.CORE0] using h
  · have h := C4_affinity_packing 3 0 0 0 (by decide) (by decide) (by decide) (by decide)
    simpa using h

/-- Claim C7: `is_sgi()` holds exactly on values below 16 and
`is_private()` exactly on values below 32; every constructed SGI is both,
every constructed PPI is private but not an SGI, and every constructed SPI
(offset below 988) is not private. -/
theorem C7_category_predicates (i : IntId) (n : Nat) :
    (i.is_sgi = true ↔ i.value < 16) ∧
    (i.is_private = true ↔ i.value < 32) ∧
    (n < 16 → ∀ j, IntId.sgi n = some j → j.is_sgi = true ∧ j.is_private = true) ∧
    (n < 16 → ∀ j, IntId.ppi n = some j → j.is_sgi = false ∧ j.is_private = true) ∧
    (n < 988 → ∀ j, IntId.spi n = some j → j.is_private = false) := by
  refine ⟨?_, ?_, ?_, ?_, ?_⟩
  · simp [IntId.is_sgi, URange.containsNat, SGI_RANGE]
  · simp [IntId.is_private, SPI_RANGE]
  · intro h j hj
    have e : IntId.sgi n = some ⟨n⟩ := by simp [IntId.sgi, SGI_RANGE, h]
    rw [e] at hj
    cases hj
    refine ⟨?_, ?_⟩ <;>
      simp [IntId.is_sgi, IntId.is_private, URange.containsNat, SGI_RANGE, SPI_RANGE] <;>
      omega
  · intro h j hj
    have e : IntId.ppi n = some ⟨16 + n⟩ := by
      simp [IntId.ppi, PPI_RANGE]
      omega
    rw [e] at hj
    cases hj
    refine ⟨?_, ?_⟩
    · simp [IntId.is_sgi, URange.containsNat, SGI_RANGE]
    · simp [IntId.is_private, SPI_RANGE]
      omega
  · intro h j hj
    have e : IntId.spi n = some ⟨32 + n⟩ := by
      simp [IntId.spi, SPECIAL_RANGE, SPI_RANGE]
      omega
    rw [e] at hj
    cases hj
    simp [IntId.is_private, SPI_RANGE]

/-- Witness for C7: the predicate characterizations at value 5 and 20, and
the constructor consequences at `sgi 3`, `ppi 3` and `spi 10`. -/
theorem C7_category_predicates_witness :
    IntId.is_sgi ⟨5⟩ = true ∧ IntId.is_private ⟨20⟩ = true ∧
    (IntId.is_sgi ⟨3⟩ = true ∧ IntId.is_private ⟨3⟩ = true) ∧
    (IntId.is_sgi ⟨19⟩ = false ∧ IntId.is_private ⟨19⟩ = true) ∧
    IntId.is_private ⟨42⟩ = false := by
  refine ⟨?_, ?_, ?_, ?_, ?_⟩
  · exact (C7_category_predicates ⟨5⟩ 0).1.mpr (by decide)
  · exact (C7_category_predicates ⟨20⟩ 0).2.1.mpr (by decide)
  · exact (C7_category_predicates ⟨3⟩ 3).2.2.1 (by decide) ⟨3⟩ (by decide)
  · exact (C7_category_predicates ⟨19⟩ 3).2.2.2.1 (by decide) ⟨19⟩ (by decide)
  · exact (C7_category_predicates ⟨42⟩ 10).2.2.2.2 (by decide) ⟨42⟩ (by decide)

/-- Claim C8: for `aff0 < 8`, `cpu_target_list()` is the 8-bit mask
`1 << aff0`, the number `2 ^ aff0`, whose only set bit is bit `aff0`. -/
theorem C8_cpu_target_list (a0 a1 a2 a3 : Nat) (h : a0 < 8) :
    (CPUTarget.mk a0 a1 a2 a3).cpu_target_list = 2 ^ a0 ∧
    ∀ k, ((CPUTarget.mk a0 a1 a2 a3).cpu_target_list).testBit k = true ↔ k = a0 := by
  have hpow : (2 : Nat) ^ a0 < 256 := by
    calc (2 : Nat) ^ a0 ≤ 2 ^ 7 := Nat.pow_le_pow_right (by omega) (by omega)
    _ < 256 := by norm_num
  have e : (CPUTarget.mk a0 a1 a2 a3).cpu_target_list = 2 ^ a0 := by
    have e0 : (CPUTarget.mk a0 a1 a2 a3).cpu_target_list = (1 <<< a0) % 256 := rfl
    rw [e0, Nat.shiftLeft_eq, Nat.one_mul, Nat.mod_eq_of_lt hpow]
  refine ⟨e, ?_⟩
  intro k
  rw [e, Nat.testBit_two_pow]
  simp [eq_comm]

/-- Witness for C8: `CORE0.cpu_target_list() == 1` and an `aff0 = 3`
target has `cpu_target_list() == 8`. -/
theorem C8_cpu_target_list_witness :
    CPUTarget.CORE0.cpu_target_list = 1 ∧
    (CPUTarget.mk 3 0 0 0).cpu_target_list = 8 := by
  constructor
  · have h := (C8_cpu_target_list 0 0 0 0 (by decide)).1
    simpa [CPUTarget.CORE0] using h
  · have h := (C8_cpu_target_list 3 0 0 0 (by decide)).1
    simpa using h
